import Mathlib

/-! The render context of the QML renderer.

A shallow embedding of `source/qml/Library/RendererQml/AdaptiveRenderContext.cpp`
and the properties of its colour translation and dispatch entry points.

Conventions of the embedding.

* `std::string` is a Lean `String`, one `Char` per C++ `char`; `length`, `operator[]`
  and `substr` act on the character list.
* A C++ function that may throw returns `Except Exception _`.  A member function that
  works on the context is a function from the context state to a result paired with
  the context state it leaves behind, so that changes made before a `throw` stay visible.
* `float` is IEEE-754 binary32 with round-to-nearest-even; a finite value is kept exactly
  as sign, integer significand and binary exponent.
-/

namespace RendererQml

/-! ## Exceptions -/

/-- The objects a `throw` can carry, split the way the two `catch` clauses of the file
split them: `AdaptiveFallbackException` (derived from `std::exception`, it has `what()`),
every other class derived from `std::exception`, and objects outside that hierarchy. -/
inductive Exception where
  | AdaptiveFallbackException (what : String)
  | stdException (what : String)
  | foreign (tag : Nat)
  deriving DecidableEq, Repr

/-- Does `catch (const std::exception&)` accept the thrown object? -/
def Exception.isStdException : Exception → Bool
  | .AdaptiveFallbackException _ => true
  | .stdException _ => true
  | .foreign _ => false

deriving instance DecidableEq for Except

/-! ## `std::string` -/

/-- The call `s.substr(pos, n)`: throws `std::out_of_range` when `pos > s.size()`, else the
at most `n` characters from index `pos` on. -/
def substr (s : String) (pos n : Nat) : Except Exception String :=
  if pos > s.length then .error (.stdException "basic_string::substr")
  else .ok ⟨(s.data.drop pos).take n⟩

/-- The read `s[i]` for `i < s.size()` (the terminating NUL otherwise). -/
def charAt (s : String) (i : Nat) : Char :=
  s.data.getD i (Char.ofNat 0)

/-! ## `float` arithmetic and `std::fixed` output -/

/-- A finite binary floating-point value `(-1)^neg * mant * 2^exp`. -/
structure Flt where
  neg : Bool
  mant : Nat
  exp : Int
  deriving DecidableEq, Repr

/-- The integer nearest to `n / d`, a tie going to the even neighbour. -/
def roundNearestEven (n d : Nat) : Nat :=
  let q := n / d
  let r := n % d
  if 2 * r < d then q
  else if d < 2 * r then q + 1
  else if q % 2 = 0 then q else q + 1

/-- The number of binary digits of `n` (`0` for `0`), by halving at most `fuel` times. -/
def bitLengthAux : Nat → Nat → Nat
  | 0, _ => 0
  | fuel + 1, n => if n = 0 then 0 else bitLengthAux fuel (n / 2) + 1

/-- The number of binary digits of `n`. -/
def bitLength (n : Nat) : Nat := bitLengthAux n n

/-- Round the non-negative rational `n / d` to binary32: a significand of at most 24 bits
over an exponent no lower than that of the subnormals.  (No overflow to infinity: the values
reached from an `int` stay far below `2^128`.) -/
def roundBinary32 (n d : Nat) : Nat × Int :=
  if n = 0 then (0, 0)
  else
    let l : Int := (bitLength n : Int) - (bitLength d : Int)
    let fl : Int := if d * 2 ^ l.toNat ≤ n * 2 ^ (-l).toNat then l else l - 1
    let e : Int := max (fl - 23) (-149)
    (roundNearestEven (n * 2 ^ (-e).toNat) (d * 2 ^ e.toNat), e)

/-- The conversion `static_cast<float>(i)` of an `int`. -/
def Flt.ofInt (i : Int) : Flt :=
  let p := roundBinary32 i.natAbs 1
  ⟨decide (i < 0), p.1, p.2⟩

/-- The quotient `x / y` of two floats, `y` non-zero, correctly rounded. -/
def Flt.div (x y : Flt) : Flt :=
  let p := roundBinary32 (x.mant * 2 ^ x.exp.toNat * 2 ^ (-y.exp).toNat)
    (y.mant * 2 ^ y.exp.toNat * 2 ^ (-x.exp).toNat)
  ⟨x.neg != y.neg, p.1, p.2⟩

/-- Two decimal digits, zero padded. -/
def twoDigits (n : Nat) : String :=
  ⟨[Nat.digitChar (n / 10 % 10), Nat.digitChar (n % 10)]⟩

/-- The text of `os << std::fixed << std::setprecision(2) << x`: the exact value of `x`
rounded to hundredths (ties to even), the sign written whenever the sign bit is set. -/
def Flt.fixed2 (x : Flt) : String :=
  let h := roundNearestEven (x.mant * 2 ^ x.exp.toNat * 100) (2 ^ (-x.exp).toNat)
  (if x.neg then "-" else "") ++ toString (h / 100) ++ "." ++ twoDigits (h % 100)

/-! ## `Utils::HexStrToInt` -/

/-- The value of one hexadecimal digit, either case. -/
def hexDigitValue (c : Char) : Option Nat :=
  if '0' ≤ c ∧ c ≤ '9' then some (c.toNat - '0'.toNat)
  else if 'a' ≤ c ∧ c ≤ 'f' then some (c.toNat - 'a'.toNat + 10)
  else if 'A' ≤ c ∧ c ≤ 'F' then some (c.toNat - 'A'.toNat + 10)
  else none

/-- The value of a run of hexadecimal digits, most significant first, on top of `acc`. -/
def hexValue : List Char → Nat → Option Nat
  | [], acc => some acc
  | c :: cs, acc =>
    match hexDigitValue c with
    | some d => hexValue cs (16 * acc + d)
    | none => none

/-- Modelled from the spec: `Utils::HexStrToInt`, whose body is not in the file at hand.
The spec has the colour fields "parse as hex" and lets a parse step fail on text such as
`ZZ`: a non-empty run of hexadecimal digits yields its value, anything else fails with an
exception of the `std::exception` family. -/
def HexStrToInt (str : String) : Except Exception Int :=
  match str.data with
  | [] => .error (.stdException "HexStrToInt")
  | cs =>
    match hexValue cs 0 with
    | some v => .ok (Int.ofNat v)
    | none => .error (.stdException "HexStrToInt")

/-! ## `AdaptiveRenderContext::GetRGBColor` -/

/-- The `try` block of `GetRGBColor`: the four fields are parsed in source order and the
`Formatter` text is built from them. -/
def GetRGBColor.tryBlock (hexStrToInt : String → Except Exception Int) (color : String) :
    Except Exception String := do
  let opacity := (Flt.ofInt (← hexStrToInt (← substr color 1 2))).div (Flt.ofInt 255)
  let r ← hexStrToInt (← substr color 3 2)
  let g ← hexStrToInt (← substr color 5 2)
  let b ← hexStrToInt (← substr color 7 2)
  pure ("Qt.rgba(" ++ toString r ++ ", " ++ toString g ++ ", " ++ toString b ++ ", "
    ++ opacity.fixed2 ++ ")")

/-- The function `AdaptiveRenderContext::GetRGBColor`, over the helper `Utils::HexStrToInt`
it calls.  The handler `catch (const std::exception&)` takes the exceptions of that family
and lets any other thrown object pass. -/
def GetRGBColor (hexStrToInt : String → Except Exception Int) (color : String) :
    Except Exception String :=
  if color.length > 1 ∧ charAt color 0 = '#' then
    if color.length = 7 then
      .ok ("'" ++ color ++ "'")
    else if color.length = 9 then
      match GetRGBColor.tryBlock hexStrToInt color with
      | .ok text => .ok text
      | .error e => if e.isStdException then .ok ("'" ++ color ++ "'") else .error e
    else
      .ok ("'" ++ color ++ "'")
  else
    .ok ("'" ++ color ++ "'")

/-! ## Host configuration, render arguments, warnings -/

/-- The struct `AdaptiveCards::HighlightColorConfig`. -/
structure HighlightColorConfig where
  defaultColor : String
  subtleColor : String
  deriving DecidableEq, Repr, Inhabited

/-- The struct `AdaptiveCards::ColorConfig`. -/
structure ColorConfig where
  defaultColor : String
  subtleColor : String
  highlightColors : HighlightColorConfig
  deriving DecidableEq, Repr, Inhabited

/-- The struct `AdaptiveCards::ColorsConfig`: the seven named foreground colours. -/
structure ColorsConfig where
  defaultColor : ColorConfig
  accent : ColorConfig
  dark : ColorConfig
  light : ColorConfig
  good : ColorConfig
  warning : ColorConfig
  attention : ColorConfig
  deriving DecidableEq, Repr, Inhabited

/-- The enum `AdaptiveCards::ForegroundColor`; `outOfRange` stands for a value of the
underlying integer type that names none of the enumerators. -/
inductive ForegroundColor where
  | Default
  | Dark
  | Light
  | Accent
  | Good
  | Warning
  | Attention
  | outOfRange (value : Int)
  deriving DecidableEq, Repr

/-- The part of a container style the context reads. -/
structure ContainerStyleDefinition where
  foregroundColors : ColorsConfig
  deriving DecidableEq, Repr, Inhabited

/-- The part of `ContainerStylesDefinition` the context reads. -/
structure ContainerStylesDefinition where
  defaultPalette : ContainerStyleDefinition
  deriving DecidableEq, Repr, Inhabited

/-- The part of `AdaptiveCards::HostConfig` the context reads, through `GetContainerStyles()`. -/
structure HostConfig where
  containerStyles : ContainerStylesDefinition
  deriving DecidableEq, Repr, Inhabited

/-- The class `AdaptiveRenderArgs`: one slot holding the active foreground palette. -/
structure AdaptiveRenderArgs where
  m_foregroundColors : ColorsConfig
  deriving DecidableEq, Repr, Inhabited

/-- The getter `AdaptiveRenderArgs::GetForegroundColors`. -/
def AdaptiveRenderArgs.GetForegroundColors (self : AdaptiveRenderArgs) : ColorsConfig :=
  self.m_foregroundColors

/-- The setter `AdaptiveRenderArgs::SetForegroundColors`. -/
def AdaptiveRenderArgs.SetForegroundColors (self : AdaptiveRenderArgs)
    (colors : ColorsConfig) : AdaptiveRenderArgs :=
  { self with m_foregroundColors := colors }

/-- The warning codes; the file names `Code::RenderException` only. -/
inductive Code where
  | RenderException
  | otherCode (value : Nat)
  deriving DecidableEq, Repr

/-- The class `AdaptiveWarning`: a code and a message. -/
structure AdaptiveWarning where
  code : Code
  message : String
  deriving DecidableEq, Repr

/-! ## The render context -/

/-- The mutable state of an `AdaptiveRenderContext`.  `Click` is the target type of
`AdaptiveCardDependency::OnClickFunction`, an empty `std::function` being `none`.  The
member `m_elementRenderers`, a pointer to the shared registry that no function of the file
reassigns, is handed to `RenderElement` as an argument instead: its entries are routines
over this very state. -/
structure AdaptiveRenderContext (Click : Type) where
  m_ancestorHasFallback : Bool
  m_hostConfig : HostConfig
  m_renderArgs : AdaptiveRenderArgs
  m_lang : String
  m_onClickFunction : Option Click
  m_warnings : List AdaptiveWarning
  deriving DecidableEq, Repr

/-- A member function of the context: from the state before the call to what the call
returns or throws, with the state after it. -/
abbrev Method (Click : Type) (α : Type) : Type :=
  AdaptiveRenderContext Click → Except Exception α × AdaptiveRenderContext Click

/-- The type `CardRendererFunction`: a routine for the document root; the tag it returns is
a `shared_ptr`, `none` when null. -/
abbrev CardRendererFunction (Card Tag Click : Type) : Type :=
  Card → Method Click (Option Tag)

/-- A routine of the element registry. -/
abbrev ElementRendererFunction (Element Tag Click : Type) : Type :=
  Element → Method Click (Option Tag)

/-- What the per-element dispatch consumes from outside the file: `typeid(*element)`,
`Utils::IsInstanceOfSmart<BaseElement>(element)` and the lookup
`AdaptiveElementRenderers::Get`, which yields a routine or `nullptr` (`none`). -/
structure AdaptiveElementRenderers (Element TypeInfo Tag Click : Type) where
  typeid : Element → TypeInfo
  IsInstanceOfSmart : Element → Bool
  Get : TypeInfo → Bool → Option (ElementRendererFunction Element Tag Click)

section Context

variable {Card Element TypeInfo Tag Click : Type}

/-- The constructor `AdaptiveRenderContext::AdaptiveRenderContext`: the member initialisers,
then the body, which loads the default palette into the freshly built render arguments. -/
def AdaptiveRenderContext.new (hostConfig : HostConfig) : AdaptiveRenderContext Click :=
  let self : AdaptiveRenderContext Click :=
    { m_ancestorHasFallback := false
      m_hostConfig := hostConfig
      m_renderArgs := default
      m_lang := ""
      m_onClickFunction := none
      m_warnings := [] }
  { self with
    m_renderArgs := self.m_renderArgs.SetForegroundColors
      self.m_hostConfig.containerStyles.defaultPalette.foregroundColors }

/-- The function `AdaptiveRenderContext::GetWarnings`. -/
def GetWarnings : Method Click (List AdaptiveWarning) :=
  fun self => (.ok self.m_warnings, self)

/-- The function `AdaptiveRenderContext::AddWarning`: `push_back` on the ledger. -/
def AddWarning (warning : AdaptiveWarning) : Method Click Unit :=
  fun self => (.ok (), { self with m_warnings := self.m_warnings ++ [warning] })

/-- The function `AdaptiveRenderContext::GetConfig`. -/
def GetConfig : Method Click HostConfig :=
  fun self => (.ok self.m_hostConfig, self)

/-- The top-level `AdaptiveRenderContext::Render(AdaptiveCard, CardRendererFunction)`.
`qmlTagOut` starts null and is assigned only when the routine returns; the one handler
takes `AdaptiveFallbackException`, every other thrown object leaves the function. -/
def Render (element : Card) (renderFunction : CardRendererFunction Card Tag Click) :
    Method Click (Option Tag) :=
  fun self =>
    match renderFunction element self with
    | (.ok qmlTagOut, self1) => (.ok qmlTagOut, self1)
    | (.error (.AdaptiveFallbackException what), self1) =>
      match AddWarning ⟨Code.RenderException, what⟩ self1 with
      | (.ok (), self2) => (.ok none, self2)
      | (.error e, self2) => (.error e, self2)
    | (.error e, self1) => (.error e, self1)

/-- The per-element `AdaptiveRenderContext::Render(BaseElement)`: look the routine up, run
it when there is one, return its tag; there is no handler in this function. -/
def RenderElement (m_elementRenderers : AdaptiveElementRenderers Element TypeInfo Tag Click)
    (element : Element) : Method Click (Option Tag) :=
  fun self =>
    match m_elementRenderers.Get (m_elementRenderers.typeid element)
        (m_elementRenderers.IsInstanceOfSmart element) with
    | some renderer => renderer element self
    | none => (.ok none, self)

/-- The function `AdaptiveRenderContext::GetColor`, over the helper `Utils::HexStrToInt`
that `GetRGBColor` calls. -/
def GetColor (hexStrToInt : String → Except Exception Int) (color : ForegroundColor)
    (isSubtle isHighlight : Bool) : Method Click String :=
  fun self =>
    let colorConfig : ColorConfig :=
      match color with
      | .Accent => self.m_renderArgs.GetForegroundColors.accent
      | .Good => self.m_renderArgs.GetForegroundColors.good
      | .Warning => self.m_renderArgs.GetForegroundColors.warning
      | .Attention => self.m_renderArgs.GetForegroundColors.attention
      | .Dark => self.m_renderArgs.GetForegroundColors.dark
      | .Light => self.m_renderArgs.GetForegroundColors.light
      | _ => self.m_renderArgs.GetForegroundColors.defaultColor
    if isHighlight then
      (GetRGBColor hexStrToInt
        (if isSubtle then colorConfig.highlightColors.subtleColor
         else colorConfig.highlightColors.defaultColor), self)
    else
      (GetRGBColor hexStrToInt
        (if isSubtle then colorConfig.subtleColor else colorConfig.defaultColor), self)

/-- The function `AdaptiveRenderContext::GetLang`. -/
def GetLang : Method Click String :=
  fun self => (.ok self.m_lang, self)

/-- The function `AdaptiveRenderContext::SetLang`. -/
def SetLang (lang : String) : Method Click Unit :=
  fun self => (.ok (), { self with m_lang := lang })

/-- The function `AdaptiveRenderContext::SetOnClickFunction`. -/
def SetOnClickFunction (onClickFunction : Option Click) : Method Click Unit :=
  fun self => (.ok (), { self with m_onClickFunction := onClickFunction })

/-- The function `AdaptiveRenderContext::GetOnClickFunction`. -/
def GetOnClickFunction : Method Click (Option Click) :=
  fun self => (.ok self.m_onClickFunction, self)

end Context

/-! ## The colour grammar, in the words of the specification -/

/-- The quoted literal: a single quote, the text unchanged, a single quote. -/
def quotedLiteral (s : String) : String :=
  "'" ++ s ++ "'"

/-- The text begins with the character `#`. -/
def BeginsWithHash (s : String) : Prop :=
  ∃ t : String, s = "#" ++ t

/-- The two-character field of a colour text that starts at index `pos`. -/
def colorField (s : String) (pos : Nat) : String :=
  ⟨(s.data.drop pos).take 2⟩

/-- A non-negative rational rounded to two digits after the decimal point, written in
fixed-point notation: the integer part, a point, the tenths and the hundredths. -/
def fixedTwoDecimals (q : ℚ) : String :=
  let h := (round (q * 100)).toNat
  toString (h / 100) ++ "." ++ toString (h % 100 / 10) ++ toString (h % 10)

/-- The opacity text of an alpha value: `alpha / 255` to two decimals. -/
def opacityText (alpha : Int) : String :=
  fixedTwoDecimals ((alpha : ℚ) / 255)

/-- The alpha-constructor call of the target toolkit. -/
def rgbaCall (red green blue : Int) (opacity : String) : String :=
  "Qt.rgba(" ++ toString red ++ ", " ++ toString green ++ ", " ++ toString blue ++ ", "
    ++ opacity ++ ")"

/-- A decimal numeral with exactly two digits after the point, signed or not, as
fixed-point output with precision 2 writes it. -/
def IsFixedTwoDecimals (o : String) : Prop :=
  ∃ (sign : Bool) (n d1 d2 : Nat), d1 < 10 ∧ d2 < 10 ∧
    o = (if sign then "-" else "") ++ toString n ++ "." ++ toString d1 ++ toString d2

/-- A text of the form `Qt.rgba(R, G, B, O)`: three decimal integers and a two-decimal
opacity. -/
def IsRgbaCall (out : String) : Prop :=
  ∃ (r g b : Int) (o : String), IsFixedTwoDecimals o ∧ out = rgbaCall r g b o

/-- The palette entry a colour token names: its own entry for accent, good, warning,
attention, dark and light, the default entry for `Default` and for any other value. -/
def paletteEntry (palette : ColorsConfig) : ForegroundColor → ColorConfig
  | .Accent => palette.accent
  | .Good => palette.good
  | .Warning => palette.warning
  | .Attention => palette.attention
  | .Dark => palette.dark
  | .Light => palette.light
  | .Default => palette.defaultColor
  | .outOfRange _ => palette.defaultColor

/-- The group of an entry: the highlight group, or the plain pair of colours. -/
def colorGroup (entry : ColorConfig) (highlight : Bool) : HighlightColorConfig :=
  if highlight then entry.highlightColors
  else { defaultColor := entry.defaultColor, subtleColor := entry.subtleColor }

/-- The raw colour text of a token and its modifiers in a palette: entry, then group, then
the subtle or the default colour of the group. -/
def rawColor (palette : ColorsConfig) (token : ForegroundColor) (subtle highlight : Bool) :
    String :=
  let group := colorGroup (paletteEntry palette token) highlight
  if subtle then group.subtleColor else group.defaultColor

/-! ## A sample document and sample contexts -/

/-- A colour entry with four distinct texts. -/
def sampleEntry (name : String) : ColorConfig :=
  { defaultColor := "#FF" ++ name
    subtleColor := "#80" ++ name
    highlightColors := { defaultColor := name, subtleColor := "#" ++ name } }

/-- A palette with seven distinct entries. -/
def samplePalette : ColorsConfig :=
  { defaultColor := sampleEntry "000000"
    accent := sampleEntry "0063B1"
    dark := sampleEntry "101010"
    light := sampleEntry "FFFFFF"
    good := sampleEntry "54A254"
    warning := sampleEntry "C3AB23"
    attention := sampleEntry "FF0000" }

/-- A host configuration whose default container style carries `samplePalette`. -/
def sampleHostConfig : HostConfig :=
  { containerStyles := { defaultPalette := { foregroundColors := samplePalette } } }

/-- A context as the constructor leaves it. -/
def sampleContext : AdaptiveRenderContext Nat :=
  AdaptiveRenderContext.new sampleHostConfig

/-- A context with the palette of `sampleContext` and every other field different. -/
def sampleContextLater : AdaptiveRenderContext Nat :=
  { m_ancestorHasFallback := true
    m_hostConfig := default
    m_renderArgs := { m_foregroundColors := samplePalette }
    m_lang := "fr"
    m_onClickFunction := some 7
    m_warnings := [⟨Code.RenderException, "earlier"⟩] }

/-- A registry over element kinds named by numbers: the routine of kind 1 raises the
fallback signal, the routine of kind 2 notes itself in the ledger and returns a tag, no
other kind has a routine. -/
def sampleRenderers : AdaptiveElementRenderers Nat Nat String Nat where
  typeid := fun element => element
  IsInstanceOfSmart := fun _ => true
  Get := fun kind _ =>
    if kind = 1 then
      some fun _ self => (.error (.AdaptiveFallbackException "kind 1 cannot render"), self)
    else if kind = 2 then
      some fun _ self => (.ok (some "Kind2"), (AddWarning ⟨Code.otherCode 2, "kind 2 ran"⟩ self).2)
    else none

/-- Dispatch the children of a container one after the other, collecting their tags. -/
def renderChildren (renderers : AdaptiveElementRenderers Nat Nat String Nat) :
    List Nat → Method Nat (List String)
  | [] => fun self => (.ok [], self)
  | child :: rest => fun self =>
    match RenderElement renderers child self with
    | (.ok tag, self1) =>
      match renderChildren renderers rest self1 with
      | (.ok tags, self2) => (.ok (tag.toList ++ tags), self2)
      | (.error e, self2) => (.error e, self2)
    | (.error e, self1) => (.error e, self1)

/-- A routine for a document whose root is the list of its children. -/
def sampleCardRenderer : CardRendererFunction (List Nat) String Nat :=
  fun card self =>
    match renderChildren sampleRenderers card self with
    | (.ok tags, self1) => (.ok (some (String.join tags)), self1)
    | (.error e, self1) => (.error e, self1)

/-! ## Ledger sequences, opacity values and further samples -/

/-- The function `GetRGBColor` as the member function it is declared as: its body names no
member of the context. -/
def AdaptiveRenderContext.GetRGBColor {Click : Type}
    (hexStrToInt : String → Except Exception Int) (color : String) : Method Click String :=
  fun self => (RendererQml.GetRGBColor hexStrToInt color, self)

/-- The calls `AddWarning(w1); ...; AddWarning(wn)` made one after the other. -/
def addWarningsInOrder {Click : Type} :
    List AdaptiveWarning → AdaptiveRenderContext Click → AdaptiveRenderContext Click
  | [], self => self
  | warning :: rest, self => addWarningsInOrder rest (AddWarning warning self).2

/-- A member function call keeps the ledger: what the ledger held before the call is a
prefix of what it holds after, however the call ends. -/
def KeepsLedger {Click α : Type} (call : Method Click α) : Prop :=
  ∀ self : AdaptiveRenderContext Click, self.m_warnings <+: (call self).2.m_warnings

/-- The number of hundredths that `std::fixed` with precision 2 writes for `x`. -/
def Flt.hundredths (x : Flt) : Nat :=
  roundNearestEven (x.mant * 2 ^ x.exp.toNat * 100) (2 ^ (-x.exp).toNat)

/-- The hundredths of the opacity `static_cast<float>(alpha) / 255` that `GetRGBColor`
writes for an alpha value. -/
def opacityHundredths (alpha : Nat) : Nat :=
  ((Flt.ofInt (Int.ofNat alpha)).div (Flt.ofInt 255)).hundredths

/-- The numeral of `h` hundredths: integer part, point, tenths digit, hundredths digit. -/
def hundredthsText (h : Nat) : String :=
  toString (h / 100) ++ "." ++ toString (h % 100 / 10) ++ toString (h % 10)

/-- The character is a hexadecimal digit. -/
def IsHexDigit (c : Char) : Prop :=
  (hexDigitValue c).isSome = true

/-- A document routine that dispatches the first child of the root and returns its tag. -/
def sampleFirstChildRenderer : CardRendererFunction (List Nat) String Nat :=
  fun card self =>
    match card with
    | [] => (.ok none, self)
    | child :: _ => RenderElement sampleRenderers child self

/-- A document routine that notes itself in the ledger and then fails with an exception
that is not the fallback signal. -/
def sampleFailingCardRenderer : CardRendererFunction (List Nat) String Nat :=
  fun _ self =>
    (.error (.stdException "std::bad_alloc"),
      (AddWarning ⟨Code.otherCode 9, "card routine ran"⟩ self).2)

/-- A document routine that notes itself in the ledger and then raises the fallback
signal. -/
def sampleNotingRenderer : CardRendererFunction (List Nat) String Nat :=
  fun _ self =>
    (.error (.AdaptiveFallbackException "card cannot render"),
      (AddWarning ⟨Code.otherCode 9, "card routine ran"⟩ self).2)

/-! ## Lemmas on strings and on the opacity arithmetic -/

theorem charAt_zero_of_beginsWithHash {s : String} (h : BeginsWithHash s) :
    charAt s 0 = '#' := by
  obtain ⟨t, rfl⟩ := h
  simp [charAt]

theorem beginsWithHash_of_charAt {s : String} (hlen : 0 < s.length)
    (h : charAt s 0 = '#') : BeginsWithHash s := by
  rcases s with ⟨cs⟩
  cases cs with
  | nil => simp at hlen
  | cons c cs =>
    have hc : c = '#' := by simpa [charAt] using h
    exact ⟨⟨cs⟩, by subst hc; rfl⟩

theorem substr_ok {s : String} {pos : Nat} (n : Nat) (h : pos ≤ s.length) :
    substr s pos n = .ok ⟨(s.data.drop pos).take n⟩ := by
  simp [substr, Nat.not_lt.mpr h]

/-- Known binary32 values: `2^24 + 1` rounds to `2^24`, `2^24 + 3` to `2^24 + 4`, and
`128 / 255` is `8421505 * 2^-24 = 0.501960813999176…`. -/
theorem binary32_samples :
    Flt.ofInt 16777217 = ⟨false, 8388608, 1⟩ ∧
    Flt.ofInt 16777219 = ⟨false, 8388610, 1⟩ ∧
    Flt.ofInt (-3) = ⟨true, 12582912, -22⟩ ∧
    (Flt.ofInt 128).div (Flt.ofInt 255) = ⟨false, 8421505, -24⟩ ∧
    ((Flt.ofInt (-1)).div (Flt.ofInt 255)).fixed2 = "-0.00" := by
  decide

theorem round_alpha_hundredths (a : Nat) :
    round ((a : ℚ) / 255 * 100) = (200 * (a : Int) + 255) / 510 := by
  have h : (a : ℚ) / 255 * 100 + 1 / 2 = ((200 * (a : Int) + 255 : Int) : ℚ) / ((510 : Nat) : ℚ) := by
    push_cast
    ring
  rw [round_eq, h, Rat.floor_intCast_div_natCast]
  rfl

set_option maxRecDepth 100000 in
theorem fixed2_alpha_table :
    ∀ a : Nat, a < 256 →
      ((Flt.ofInt (Int.ofNat a)).div (Flt.ofInt 255)).fixed2
        = toString (((200 * (a : Int) + 255) / 510).toNat / 100) ++ "."
          ++ toString (((200 * (a : Int) + 255) / 510).toNat % 100 / 10)
          ++ toString (((200 * (a : Int) + 255) / 510).toNat % 10) := by
  decide

/-- On alpha values of one byte the `float` computation of the source and the rational
rounding of the specification write the same opacity text. -/
theorem fixed2_eq_opacityText (alpha : Int) (h0 : 0 ≤ alpha) (h1 : alpha ≤ 255) :
    ((Flt.ofInt alpha).div (Flt.ofInt 255)).fixed2 = opacityText alpha := by
  obtain ⟨a, rfl⟩ := Int.eq_ofNat_of_zero_le h0
  have ha : a < 256 := by omega
  have := fixed2_alpha_table a ha
  simp only [opacityText, fixedTwoDecimals, Int.cast_natCast, round_alpha_hundredths]
  exact this

/-! ## Lemmas on the `try` block of `GetRGBColor` -/

section TryBlock

variable {hexStrToInt : String → Except Exception Int} {s : String}

theorem tryBlock_unfold (hlen : s.length = 9) :
    GetRGBColor.tryBlock hexStrToInt s =
      (hexStrToInt (colorField s 1)).bind fun alpha =>
      (hexStrToInt (colorField s 3)).bind fun r =>
      (hexStrToInt (colorField s 5)).bind fun g =>
      (hexStrToInt (colorField s 7)).bind fun b =>
      .ok (rgbaCall r g b ((Flt.ofInt alpha).div (Flt.ofInt 255)).fixed2) := by
  have h1 : substr s 1 2 = .ok (colorField s 1) := substr_ok 2 (by omega)
  have h3 : substr s 3 2 = .ok (colorField s 3) := substr_ok 2 (by omega)
  have h5 : substr s 5 2 = .ok (colorField s 5) := substr_ok 2 (by omega)
  have h7 : substr s 7 2 = .ok (colorField s 7) := substr_ok 2 (by omega)
  simp only [GetRGBColor.tryBlock, h1, h3, h5, h7, bind, Except.bind, pure, Except.pure,
    rgbaCall]

theorem tryBlock_ok_inv (hlen : s.length = 9) {text : String}
    (h : GetRGBColor.tryBlock hexStrToInt s = .ok text) :
    ∃ alpha r g b : Int,
      hexStrToInt (colorField s 1) = .ok alpha ∧ hexStrToInt (colorField s 3) = .ok r ∧
      hexStrToInt (colorField s 5) = .ok g ∧ hexStrToInt (colorField s 7) = .ok b ∧
      text = rgbaCall r g b ((Flt.ofInt alpha).div (Flt.ofInt 255)).fixed2 := by
  rw [tryBlock_unfold hlen] at h
  cases ha : hexStrToInt (colorField s 1) with
  | error e => simp [ha, Except.bind] at h
  | ok alpha =>
    cases hr : hexStrToInt (colorField s 3) with
    | error e => simp [ha, hr, Except.bind] at h
    | ok r =>
      cases hg : hexStrToInt (colorField s 5) with
      | error e => simp [ha, hr, hg, Except.bind] at h
      | ok g =>
        cases hb : hexStrToInt (colorField s 7) with
        | error e => simp [ha, hr, hg, hb, Except.bind] at h
        | ok b =>
          simp only [ha, hr, hg, hb, Except.bind, Except.ok.injEq] at h
          exact ⟨alpha, r, g, b, rfl, rfl, rfl, rfl, h.symm⟩

theorem tryBlock_error_inv (hlen : s.length = 9) {e : Exception}
    (h : GetRGBColor.tryBlock hexStrToInt s = .error e) :
    ∃ t : String, hexStrToInt t = .error e := by
  rw [tryBlock_unfold hlen] at h
  cases ha : hexStrToInt (colorField s 1) with
  | error e1 =>
    simp only [ha, Except.bind, Except.error.injEq] at h
    exact ⟨_, h ▸ ha⟩
  | ok alpha =>
    cases hr : hexStrToInt (colorField s 3) with
    | error e1 =>
      simp only [ha, hr, Except.bind, Except.error.injEq] at h
      exact ⟨_, h ▸ hr⟩
    | ok r =>
      cases hg : hexStrToInt (colorField s 5) with
      | error e1 =>
        simp only [ha, hr, hg, Except.bind, Except.error.injEq] at h
        exact ⟨_, h ▸ hg⟩
      | ok g =>
        cases hb : hexStrToInt (colorField s 7) with
        | error e1 =>
          simp only [ha, hr, hg, hb, Except.bind, Except.error.injEq] at h
          exact ⟨_, h ▸ hb⟩
        | ok b => simp [ha, hr, hg, hb, Except.bind] at h

theorem GetRGBColor_nine (hlen : s.length = 9) (hhash : BeginsWithHash s) :
    GetRGBColor hexStrToInt s =
      match GetRGBColor.tryBlock hexStrToInt s with
      | .ok text => .ok text
      | .error e => if e.isStdException then .ok ("'" ++ s ++ "'") else .error e := by
  have hc := charAt_zero_of_beginsWithHash hhash
  simp [GetRGBColor, hlen, hc]

end TryBlock

/-! ## Claims on `GetRGBColor` -/

/-- C1: for every 9-character text that begins with `#` and whose alpha, red, green and blue
fields are parsed by `HexStrToInt` (alpha to a byte value, as a two-digit hexadecimal field
is), `GetRGBColor` returns exactly `Qt.rgba(R, G, B, O)` with the channels in decimal and
`O` the quotient `alpha / 255` rounded to two decimals in fixed-point notation; and with the
four fields of `#80336699` parsed to 128, 51, 102 and 153 the result is
`Qt.rgba(51, 102, 153, 0.50)`. -/
theorem GetRGBColor_argb_text (hexStrToInt : String → Except Exception Int) :
    (∀ (s : String) (alpha red green blue : Int),
      s.length = 9 → BeginsWithHash s →
      hexStrToInt (colorField s 1) = .ok alpha → hexStrToInt (colorField s 3) = .ok red →
      hexStrToInt (colorField s 5) = .ok green → hexStrToInt (colorField s 7) = .ok blue →
      0 ≤ alpha → alpha ≤ 255 →
      GetRGBColor hexStrToInt s = .ok (rgbaCall red green blue (opacityText alpha))) ∧
    (hexStrToInt "80" = .ok 128 → hexStrToInt "33" = .ok 51 →
      hexStrToInt "66" = .ok 102 → hexStrToInt "99" = .ok 153 →
      GetRGBColor hexStrToInt "#80336699" = .ok "Qt.rgba(51, 102, 153, 0.50)") := by
  have general : ∀ (s : String) (alpha red green blue : Int),
      s.length = 9 → BeginsWithHash s →
      hexStrToInt (colorField s 1) = .ok alpha → hexStrToInt (colorField s 3) = .ok red →
      hexStrToInt (colorField s 5) = .ok green → hexStrToInt (colorField s 7) = .ok blue →
      GetRGBColor hexStrToInt s
        = .ok (rgbaCall red green blue ((Flt.ofInt alpha).div (Flt.ofInt 255)).fixed2) := by
    intro s alpha red green blue hlen hhash ha hr hg hb
    rw [GetRGBColor_nine hlen hhash, tryBlock_unfold hlen, ha, hr, hg, hb]
    rfl
  refine ⟨?_, ?_⟩
  · intro s alpha red green blue hlen hhash ha hr hg hb h0 h1
    rw [general s alpha red green blue hlen hhash ha hr hg hb,
      fixed2_eq_opacityText alpha h0 h1]
  · intro ha hr hg hb
    rw [general "#80336699" 128 51 102 153 rfl ⟨"80336699", rfl⟩ ha hr hg hb]
    decide

/-- C1 at `#80336699` with the hexadecimal reading of the fields. -/
theorem GetRGBColor_argb_text_witness :
    ("#80336699".length = 9 ∧ BeginsWithHash "#80336699" ∧
      (0 : Int) ≤ 128 ∧ (128 : Int) ≤ 255 ∧
      GetRGBColor HexStrToInt "#80336699" = .ok (rgbaCall 51 102 153 (opacityText 128))) ∧
    GetRGBColor HexStrToInt "#80336699" = .ok "Qt.rgba(51, 102, 153, 0.50)" :=
  ⟨⟨rfl, ⟨"80336699", rfl⟩, by decide, by decide,
    (GetRGBColor_argb_text HexStrToInt).1 "#80336699" 128 51 102 153 rfl ⟨"80336699", rfl⟩
      rfl rfl rfl rfl (by decide) (by decide)⟩,
   (GetRGBColor_argb_text HexStrToInt).2 rfl rfl rfl rfl⟩

/-- C2: for every 9-character text that begins with `#`, when `HexStrToInt` fails on one of
the four fields (its failures being exceptions of the `std::exception` family, those the
handler takes), `GetRGBColor` returns the text in single quotes: no `Qt.rgba` output, no
exception; and when it fails on `ZZ` the result for `#ZZ336699` is `'#ZZ336699'`. -/
theorem GetRGBColor_parse_failure (hexStrToInt : String → Except Exception Int)
    (hstd : ∀ t e, hexStrToInt t = .error e → e.isStdException = true) :
    (∀ s : String, s.length = 9 → BeginsWithHash s →
      ((∃ e, hexStrToInt (colorField s 1) = .error e) ∨
       (∃ e, hexStrToInt (colorField s 3) = .error e) ∨
       (∃ e, hexStrToInt (colorField s 5) = .error e) ∨
       (∃ e, hexStrToInt (colorField s 7) = .error e)) →
      GetRGBColor hexStrToInt s = .ok (quotedLiteral s)) ∧
    ((∃ e, hexStrToInt "ZZ" = .error e) →
      GetRGBColor hexStrToInt "#ZZ336699" = .ok "'#ZZ336699'") := by
  have general : ∀ s : String, s.length = 9 → BeginsWithHash s →
      ((∃ e, hexStrToInt (colorField s 1) = .error e) ∨
       (∃ e, hexStrToInt (colorField s 3) = .error e) ∨
       (∃ e, hexStrToInt (colorField s 5) = .error e) ∨
       (∃ e, hexStrToInt (colorField s 7) = .error e)) →
      GetRGBColor hexStrToInt s = .ok (quotedLiteral s) := by
    intro s hlen hhash hfail
    rw [GetRGBColor_nine hlen hhash]
    cases hres : GetRGBColor.tryBlock hexStrToInt s with
    | ok text =>
      obtain ⟨alpha, r, g, b, ha, hr, hg, hb, _⟩ := tryBlock_ok_inv hlen hres
      rcases hfail with ⟨e, he⟩ | ⟨e, he⟩ | ⟨e, he⟩ | ⟨e, he⟩
      · rw [ha] at he; cases he
      · rw [hr] at he; cases he
      · rw [hg] at he; cases he
      · rw [hb] at he; cases he
    | error e =>
      obtain ⟨t, ht⟩ := tryBlock_error_inv hlen hres
      simp [hstd t e ht, quotedLiteral]
  refine ⟨general, ?_⟩
  intro hzz
  exact general "#ZZ336699" rfl ⟨"ZZ336699", rfl⟩ (Or.inl hzz)

theorem HexStrToInt_error_std (t : String) (e : Exception)
    (h : HexStrToInt t = .error e) : e.isStdException = true := by
  unfold HexStrToInt at h
  split at h
  · cases h; rfl
  · split at h
    · cases h
    · cases h; rfl

/-- C2 at `#ZZ336699` with the hexadecimal reading of the fields. -/
theorem GetRGBColor_parse_failure_witness :
    (∀ t e, HexStrToInt t = .error e → e.isStdException = true) ∧
    (∃ e, HexStrToInt (colorField "#ZZ336699" 1) = .error e) ∧
    GetRGBColor HexStrToInt "#ZZ336699" = .ok (quotedLiteral "#ZZ336699") ∧
    GetRGBColor HexStrToInt "#ZZ336699" = .ok "'#ZZ336699'" :=
  ⟨HexStrToInt_error_std, ⟨_, rfl⟩,
    (GetRGBColor_parse_failure HexStrToInt HexStrToInt_error_std).1 "#ZZ336699" rfl
      ⟨"ZZ336699", rfl⟩ (Or.inl ⟨_, rfl⟩),
    (GetRGBColor_parse_failure HexStrToInt HexStrToInt_error_std).2 ⟨_, rfl⟩⟩

theorem toString_digit : ∀ d : Nat, d < 10 → toString d = String.mk [Nat.digitChar d] := by
  decide

theorem fixed2_isFixedTwoDecimals (x : Flt) : IsFixedTwoDecimals x.fixed2 := by
  let h := roundNearestEven (x.mant * 2 ^ x.exp.toNat * 100) (2 ^ (-x.exp).toNat)
  refine ⟨x.neg, h / 100, h % 100 / 10 % 10, h % 100 % 10,
    Nat.mod_lt _ (by decide), Nat.mod_lt _ (by decide), ?_⟩
  rw [toString_digit _ (Nat.mod_lt _ (by decide)), toString_digit _ (Nat.mod_lt _ (by decide)),
    String.append_assoc _ (String.mk _) (String.mk _)]
  rfl

theorem quotedLiteral_not_rgbaCall (s : String) : ¬ IsRgbaCall (quotedLiteral s) := by
  rintro ⟨r, g, b, o, _, h⟩
  have := congrArg String.data h
  simp [quotedLiteral, rgbaCall, String.data_append] at this

theorem GetRGBColor_of_length_ne_nine (hexStrToInt : String → Except Exception Int)
    (s : String) (hlen : s.length ≠ 9) :
    GetRGBColor hexStrToInt s = .ok (quotedLiteral s) := by
  simp [GetRGBColor, hlen, quotedLiteral]

/-- C7: for every text that is empty, has length 1 or does not begin with `#`,
`GetRGBColor` returns a single quote, the text unchanged and a single quote, whatever the
hexadecimal helper does; so `red` gives `'red'` and `#` gives `'#'`. -/
theorem GetRGBColor_opaque_token (hexStrToInt : String → Except Exception Int) :
    (∀ s : String, s.length ≤ 1 ∨ ¬ BeginsWithHash s →
      GetRGBColor hexStrToInt s = .ok (quotedLiteral s)) ∧
    GetRGBColor hexStrToInt "red" = .ok "'red'" ∧
    GetRGBColor hexStrToInt "#" = .ok "'#'" := by
  refine ⟨?_, rfl, rfl⟩
  intro s h
  have hcond : ¬ (s.length > 1 ∧ charAt s 0 = '#') := by
    rintro ⟨hlen, hc⟩
    rcases h with h | h
    · omega
    · exact h (beginsWithHash_of_charAt (by omega) hc)
  simp [GetRGBColor, hcond, quotedLiteral]

/-- C7 at the empty text and at `red`. -/
theorem GetRGBColor_opaque_token_witness :
    ("".length ≤ 1 ∨ ¬ BeginsWithHash "") ∧
    GetRGBColor HexStrToInt "" = .ok (quotedLiteral "") ∧
    GetRGBColor HexStrToInt "red" = .ok "'red'" :=
  ⟨Or.inl (by decide), (GetRGBColor_opaque_token HexStrToInt).1 "" (Or.inl (by decide)),
    (GetRGBColor_opaque_token HexStrToInt).2.1⟩

/-- C8: for every text that begins with `#` and whose length is not 9 (7 included, hex
digits or not), `GetRGBColor` returns the text in single quotes, unchanged; so `#336699`
gives `'#336699'`. -/
theorem GetRGBColor_hash_other_length (hexStrToInt : String → Except Exception Int) :
    (∀ s : String, BeginsWithHash s → s.length ≠ 9 →
      GetRGBColor hexStrToInt s = .ok (quotedLiteral s)) ∧
    GetRGBColor hexStrToInt "#336699" = .ok "'#336699'" := by
  refine ⟨?_, rfl⟩
  intro s _ hlen
  exact GetRGBColor_of_length_ne_nine hexStrToInt s hlen

/-- C8 at `#336699` and at the non-hexadecimal `#xyz`. -/
theorem GetRGBColor_hash_other_length_witness :
    BeginsWithHash "#xyz" ∧ "#xyz".length ≠ 9 ∧
    GetRGBColor HexStrToInt "#xyz" = .ok (quotedLiteral "#xyz") ∧
    GetRGBColor HexStrToInt "#336699" = .ok "'#336699'" :=
  ⟨⟨"xyz", rfl⟩, by decide,
    (GetRGBColor_hash_other_length HexStrToInt).1 "#xyz" ⟨"xyz", rfl⟩ (by decide),
    (GetRGBColor_hash_other_length HexStrToInt).2⟩

/-- C9: `GetRGBColor` is total and two-formed: for every text it returns a string and
raises nothing (the failures of `HexStrToInt` being exceptions of the `std::exception`
family), the string is the text in single quotes or has the form `Qt.rgba(R, G, B, O)`, and
the second form comes only from a text of exactly 9 characters that begins with `#`. -/
theorem GetRGBColor_total_two_forms (hexStrToInt : String → Except Exception Int)
    (hstd : ∀ t e, hexStrToInt t = .error e → e.isStdException = true) (s : String) :
    ∃ out : String, GetRGBColor hexStrToInt s = .ok out ∧
      (out = quotedLiteral s ∨ IsRgbaCall out) ∧
      (IsRgbaCall out → s.length = 9 ∧ BeginsWithHash s) := by
  have quoted : ∀ out, out = quotedLiteral s →
      (out = quotedLiteral s ∨ IsRgbaCall out) ∧
      (IsRgbaCall out → s.length = 9 ∧ BeginsWithHash s) := by
    intro out h
    exact ⟨Or.inl h, fun hr => absurd (h ▸ hr) (quotedLiteral_not_rgbaCall s)⟩
  by_cases hcond : s.length > 1 ∧ charAt s 0 = '#'
  · have hhash : BeginsWithHash s := beginsWithHash_of_charAt (by omega) hcond.2
    by_cases h9 : s.length = 9
    · rw [GetRGBColor_nine h9 hhash]
      cases hres : GetRGBColor.tryBlock hexStrToInt s with
      | ok text =>
        obtain ⟨alpha, r, g, b, _, _, _, _, htext⟩ := tryBlock_ok_inv h9 hres
        exact ⟨text, rfl, Or.inr ⟨r, g, b, _, fixed2_isFixedTwoDecimals _, htext⟩,
          fun _ => ⟨h9, hhash⟩⟩
      | error e =>
        obtain ⟨t, ht⟩ := tryBlock_error_inv h9 hres
        exact ⟨quotedLiteral s, by simp [hstd t e ht, quotedLiteral], quoted _ rfl⟩
    · exact ⟨quotedLiteral s, GetRGBColor_of_length_ne_nine hexStrToInt s h9, quoted _ rfl⟩
  · refine ⟨quotedLiteral s, ?_, quoted _ rfl⟩
    simp [GetRGBColor, hcond, quotedLiteral]

/-- C9 with the hexadecimal reading of the fields, at `#80336699`. -/
theorem GetRGBColor_total_two_forms_witness :
    (∀ t e, HexStrToInt t = .error e → e.isStdException = true) ∧
    ∃ out : String, GetRGBColor HexStrToInt "#80336699" = .ok out ∧
      (out = quotedLiteral "#80336699" ∨ IsRgbaCall out) ∧
      (IsRgbaCall out → "#80336699".length = 9 ∧ BeginsWithHash "#80336699") :=
  ⟨HexStrToInt_error_std,
    GetRGBColor_total_two_forms HexStrToInt HexStrToInt_error_std "#80336699"⟩

/-! ## Claims on the two `Render` entry points -/

section RenderClaims

variable {Card Element TypeInfo Tag Click : Type}

/-- C3: when the routine handed to the top-level `Render` raises the fallback signal with
message `m`, `Render` raises nothing and returns the null tag, and the context afterwards is
the context as the routine left it with one more warning at the end of the ledger, of code
`RenderException` and message `m`. -/
theorem Render_fallback_recorded (self stateAtRaise : AdaptiveRenderContext Click)
    (root : Card) (routine : CardRendererFunction Card Tag Click) (m : String)
    (hraise : routine root self = (.error (.AdaptiveFallbackException m), stateAtRaise)) :
    Render root routine self
      = (.ok none, { stateAtRaise with
          m_warnings := stateAtRaise.m_warnings ++ [⟨Code.RenderException, m⟩] }) := by
  simp [Render, hraise, AddWarning]

/-- C3 on the sample document whose only child is of the failing kind. -/
theorem Render_fallback_recorded_witness :
    sampleCardRenderer [1] sampleContextLater
      = (.error (.AdaptiveFallbackException "kind 1 cannot render"), sampleContextLater) ∧
    Render [1] sampleCardRenderer sampleContextLater
      = (.ok none, { sampleContextLater with
          m_warnings := [⟨Code.RenderException, "earlier"⟩,
            ⟨Code.RenderException, "kind 1 cannot render"⟩] }) :=
  ⟨rfl, Render_fallback_recorded sampleContextLater sampleContextLater [1] sampleCardRenderer
    "kind 1 cannot render" rfl⟩

/-- C4, as the code has it: when the registered routine of an element raises the fallback
signal, the per-element `Render` hands the signal on to its caller, with the context as the
routine left it. -/
theorem RenderElement_fallback_propagates
    (renderers : AdaptiveElementRenderers Element TypeInfo Tag Click) (element : Element)
    (routine : ElementRendererFunction Element Tag Click)
    (self stateAtRaise : AdaptiveRenderContext Click) (m : String)
    (hfound : renderers.Get (renderers.typeid element) (renderers.IsInstanceOfSmart element)
      = some routine)
    (hraise : routine element self = (.error (.AdaptiveFallbackException m), stateAtRaise)) :
    RenderElement renderers element self
      = (.error (.AdaptiveFallbackException m), stateAtRaise) := by
  simp [RenderElement, hfound, hraise]

/-- C4 as the code has it, on the failing kind of the sample registry. -/
theorem RenderElement_fallback_propagates_witness :
    (∃ routine, sampleRenderers.Get (sampleRenderers.typeid 1)
        (sampleRenderers.IsInstanceOfSmart 1) = some routine ∧
      routine 1 sampleContext
        = (.error (.AdaptiveFallbackException "kind 1 cannot render"), sampleContext)) ∧
    RenderElement sampleRenderers 1 sampleContext
      = (.error (.AdaptiveFallbackException "kind 1 cannot render"), sampleContext) :=
  ⟨⟨_, rfl, rfl⟩,
    RenderElement_fallback_propagates sampleRenderers 1 _ sampleContext sampleContext
      "kind 1 cannot render" rfl rfl⟩

/-- C4 fails as stated: on the sample registry the dispatch of an element of kind 1 ends in
the fallback signal, not in a result; and a document with the children 1 and 2 ends with
the sibling of kind 2 never dispatched (no tag, no note of kind 2 in the ledger), though
alone it renders. -/
theorem RenderElement_fallback_not_caught :
    (RenderElement sampleRenderers 1 sampleContext).1
      = .error (.AdaptiveFallbackException "kind 1 cannot render") ∧
    sampleCardRenderer [1, 2] sampleContext
      = (.error (.AdaptiveFallbackException "kind 1 cannot render"), sampleContext) ∧
    Render [1, 2] sampleCardRenderer sampleContext
      = (.ok none, { sampleContext with
          m_warnings := [⟨Code.RenderException, "kind 1 cannot render"⟩] }) ∧
    Render [2] sampleCardRenderer sampleContext
      = (.ok (some "Kind2"), { sampleContext with
          m_warnings := [⟨Code.otherCode 2, "kind 2 ran"⟩] }) :=
  ⟨rfl, rfl, rfl, rfl⟩

/-- C5: when the registry lookup for an element returns no routine, the per-element
`Render` returns the null tag, raises nothing and leaves the whole context, the warning
ledger included, as it was. -/
theorem RenderElement_unregistered
    (renderers : AdaptiveElementRenderers Element TypeInfo Tag Click) (element : Element)
    (self : AdaptiveRenderContext Click)
    (hnone : renderers.Get (renderers.typeid element) (renderers.IsInstanceOfSmart element)
      = none) :
    RenderElement renderers element self = (.ok none, self) := by
  simp [RenderElement, hnone]

/-- C5 on a kind the sample registry does not know. -/
theorem RenderElement_unregistered_witness :
    sampleRenderers.Get (sampleRenderers.typeid 3) (sampleRenderers.IsInstanceOfSmart 3)
      = none ∧
    RenderElement sampleRenderers 3 sampleContextLater = (.ok none, sampleContextLater) :=
  ⟨rfl, RenderElement_unregistered sampleRenderers 3 sampleContextLater rfl⟩

end RenderClaims

/-! ## Claims on `GetColor` -/

/-- C6: for every token, pair of modifiers and context, the string `GetColor` returns is
`GetRGBColor` of the raw colour picked from the active palette: the entry named by the
token (the default entry for `Default` and for values outside the six names), its highlight
or plain group, the subtle or default colour of that group. -/
theorem GetColor_eq_GetRGBColor_rawColor {Click : Type}
    (hexStrToInt : String → Except Exception Int) (token : ForegroundColor)
    (subtle highlight : Bool) (self : AdaptiveRenderContext Click) :
    (GetColor hexStrToInt token subtle highlight self).1
      = GetRGBColor hexStrToInt
          (rawColor self.m_renderArgs.GetForegroundColors token subtle highlight) := by
  cases token <;> cases subtle <;> cases highlight <;> rfl

/-- C10: `GetColor` reads the active foreground palette only and writes nothing: two
contexts with the same palette give the same result for every token and modifiers,
whatever their locale, ledger, click handler, host configuration and fallback flag, and the
call leaves each context as it was. -/
theorem GetColor_palette_only {Click : Type} (hexStrToInt : String → Except Exception Int)
    (token : ForegroundColor) (subtle highlight : Bool)
    (self other : AdaptiveRenderContext Click)
    (hpalette : self.m_renderArgs.GetForegroundColors
      = other.m_renderArgs.GetForegroundColors) :
    (GetColor hexStrToInt token subtle highlight self).1
        = (GetColor hexStrToInt token subtle highlight other).1 ∧
      (GetColor hexStrToInt token subtle highlight self).2 = self ∧
      (GetColor hexStrToInt token subtle highlight other).2 = other := by
  refine ⟨?_, ?_, ?_⟩
  · cases token <;> cases subtle <;> cases highlight <;> simp [GetColor, hpalette]
  · cases highlight <;> rfl
  · cases highlight <;> rfl

/-- C10 on two sample contexts that share the palette and nothing else. -/
theorem GetColor_palette_only_witness :
    sampleContext.m_renderArgs.GetForegroundColors
        = sampleContextLater.m_renderArgs.GetForegroundColors ∧
      sampleContext.m_lang ≠ sampleContextLater.m_lang ∧
      sampleContext.m_warnings ≠ sampleContextLater.m_warnings ∧
      sampleContext.m_onClickFunction ≠ sampleContextLater.m_onClickFunction ∧
      sampleContext.m_hostConfig ≠ sampleContextLater.m_hostConfig ∧
      sampleContext.m_ancestorHasFallback ≠ sampleContextLater.m_ancestorHasFallback ∧
      (GetColor HexStrToInt .Accent true false sampleContext).1 = .ok "Qt.rgba(0, 99, 177, 0.50)" ∧
      (GetColor HexStrToInt .Accent true false sampleContext).1
        = (GetColor HexStrToInt .Accent true false sampleContextLater).1 ∧
      (GetColor HexStrToInt .Accent true false sampleContext).2 = sampleContext ∧
      (GetColor HexStrToInt .Accent true false sampleContextLater).2 = sampleContextLater :=
  ⟨rfl, by decide, by decide, by decide, by decide, by decide, by decide,
    GetColor_palette_only HexStrToInt .Accent true false sampleContext sampleContextLater rfl⟩

/-! ## Claims on the outcome of the top-level `Render` -/

section TopLevelClaims

variable {Card Element TypeInfo Tag Click : Type}

/-- C11, as the code has it: the top-level `Render` never ends in the fallback signal, and
its outcome is one of four: a valid tag; the null tag with one `RenderException` warning
appended by this call (the routine raised the fallback signal); the null tag with the
ledger as the routine left it (the routine itself returned null); or the error of another
kind that the routine raised. -/
theorem Render_outcomes (self : AdaptiveRenderContext Click) (root : Card)
    (routine : CardRendererFunction Card Tag Click) :
    (∀ m after, Render root routine self ≠ (.error (.AdaptiveFallbackException m), after)) ∧
    ((∃ tag after, Render root routine self = (.ok (some tag), after)) ∨
     (∃ m left, routine root self = (.error (.AdaptiveFallbackException m), left) ∧
        Render root routine self = (.ok none, { left with
          m_warnings := left.m_warnings ++ [⟨Code.RenderException, m⟩] })) ∨
     (∃ left, routine root self = (.ok none, left) ∧
        Render root routine self = (.ok none, left)) ∨
     (∃ e left, (∀ m, e ≠ .AdaptiveFallbackException m) ∧
        routine root self = (.error e, left) ∧ Render root routine self = (.error e, left))) := by
  cases hrun : routine root self with
  | mk result left =>
    cases result with
    | ok tag =>
      cases tag with
      | none =>
        have h : Render root routine self = (.ok none, left) := by simp [Render, hrun]
        exact ⟨fun m after hc => (by rw [h] at hc; cases hc), Or.inr (Or.inr (Or.inl ⟨left, rfl, h⟩))⟩
      | some tag =>
        have h : Render root routine self = (.ok (some tag), left) := by simp [Render, hrun]
        exact ⟨fun m after hc => (by rw [h] at hc; cases hc), Or.inl ⟨tag, left, h⟩⟩
    | error e =>
      cases e with
      | AdaptiveFallbackException m =>
        have h : Render root routine self = (.ok none, { left with
            m_warnings := left.m_warnings ++ [⟨Code.RenderException, m⟩] }) := by
          simp [Render, hrun, AddWarning]
        exact ⟨fun m1 after hc => (by rw [h] at hc; cases hc), Or.inr (Or.inl ⟨m, left, rfl, h⟩)⟩
      | stdException what =>
        have h : Render root routine self = (.error (.stdException what), left) := by
          simp [Render, hrun]
        exact ⟨fun m after hc => (by rw [h] at hc; cases hc),
          Or.inr (Or.inr (Or.inr ⟨_, left, fun m hm => (by cases hm), rfl, h⟩))⟩
      | foreign tag =>
        have h : Render root routine self = (.error (.foreign tag), left) := by
          simp [Render, hrun]
        exact ⟨fun m after hc => (by rw [h] at hc; cases hc),
          Or.inr (Or.inr (Or.inr ⟨_, left, fun m hm => (by cases hm), rfl, h⟩))⟩

/-- C11 fails as stated: the sample routine that dispatches the first child, run on a root
whose first child has no registered routine, makes `Render` return the null tag with no
warning recorded: the ledger, and the whole context, is as before the call. -/
theorem Render_null_without_warning :
    Render [3] sampleFirstChildRenderer sampleContextLater = (.ok none, sampleContextLater) ∧
    (Render [3] sampleFirstChildRenderer sampleContextLater).2.m_warnings
      = sampleContextLater.m_warnings :=
  ⟨rfl, rfl⟩

/-- C16: when the routine returns a tag without raising, the top-level `Render` returns that
very tag, null when the tag is null, and the context afterwards, the ledger included, is
the one the routine left: no warning is added. -/
theorem Render_passes_tag (self left : AdaptiveRenderContext Click) (root : Card)
    (routine : CardRendererFunction Card Tag Click) (tag : Option Tag)
    (hreturn : routine root self = (.ok tag, left)) :
    Render root routine self = (.ok tag, left) ∧
    (Render root routine self).2.m_warnings = left.m_warnings := by
  have h : Render root routine self = (.ok tag, left) := by simp [Render, hreturn]
  exact ⟨h, by rw [h]⟩

/-- C16 on the sample document with one child of kind 2, and with one child of an unknown
kind, where the tag is null. -/
theorem Render_passes_tag_witness :
    sampleCardRenderer [2] sampleContextLater
      = (.ok (some "Kind2"), { sampleContextLater with
          m_warnings := [⟨Code.RenderException, "earlier"⟩, ⟨Code.otherCode 2, "kind 2 ran"⟩] }) ∧
    (Render [2] sampleCardRenderer sampleContextLater
      = (.ok (some "Kind2"), { sampleContextLater with
          m_warnings := [⟨Code.RenderException, "earlier"⟩, ⟨Code.otherCode 2, "kind 2 ran"⟩] }) ∧
     (Render [2] sampleCardRenderer sampleContextLater).2.m_warnings
      = [⟨Code.RenderException, "earlier"⟩, ⟨Code.otherCode 2, "kind 2 ran"⟩]) :=
  ⟨rfl, Render_passes_tag sampleContextLater _ [2] sampleCardRenderer (some "Kind2") rfl⟩

/-- C17: when the routine fails with an error that is not the fallback signal, the
top-level `Render` ends in that same error and the context, the ledger included, is the one
the routine left: no `RenderException` warning is appended. -/
theorem Render_other_error_propagates (self left : AdaptiveRenderContext Click) (root : Card)
    (routine : CardRendererFunction Card Tag Click) (e : Exception)
    (hother : ∀ m, e ≠ .AdaptiveFallbackException m)
    (hfail : routine root self = (.error e, left)) :
    Render root routine self = (.error e, left) ∧
    (Render root routine self).2.m_warnings = left.m_warnings := by
  have h : Render root routine self = (.error e, left) := by
    cases e with
    | AdaptiveFallbackException m => exact absurd rfl (hother m)
    | stdException what => simp [Render, hfail]
    | foreign tag => simp [Render, hfail]
  exact ⟨h, by rw [h]⟩

/-- C17 on the sample routine that fails with `std::bad_alloc` after a note in the
ledger. -/
theorem Render_other_error_propagates_witness :
    (∀ m, Exception.stdException "std::bad_alloc" ≠ .AdaptiveFallbackException m) ∧
    (Render [2] sampleFailingCardRenderer sampleContext
      = (.error (.stdException "std::bad_alloc"), { sampleContext with
          m_warnings := [⟨Code.otherCode 9, "card routine ran"⟩] }) ∧
     (Render [2] sampleFailingCardRenderer sampleContext).2.m_warnings
      = [⟨Code.otherCode 9, "card routine ran"⟩]) :=
  ⟨fun _ h => (by cases h),
    Render_other_error_propagates sampleContext _ [2] sampleFailingCardRenderer
      (.stdException "std::bad_alloc") (fun _ h => by cases h) rfl⟩

/-- C13: when the registry lookup for an element returns the routine `f`, the per-element
`Render` is one run of `f` on that element and this context: it returns what `f` returns
(or raises what `f` raises) and the context afterwards is the one `f` left, `Render`
itself changing nothing. -/
theorem RenderElement_runs_routine
    (renderers : AdaptiveElementRenderers Element TypeInfo Tag Click) (element : Element)
    (f : ElementRendererFunction Element Tag Click) (self : AdaptiveRenderContext Click)
    (hfound : renderers.Get (renderers.typeid element) (renderers.IsInstanceOfSmart element)
      = some f) :
    RenderElement renderers element self = f element self := by
  simp [RenderElement, hfound]

/-- C13 on kind 2 of the sample registry: one run of the routine, one note in the
ledger. -/
theorem RenderElement_runs_routine_witness :
    (∃ f, sampleRenderers.Get (sampleRenderers.typeid 2) (sampleRenderers.IsInstanceOfSmart 2)
        = some f ∧
      RenderElement sampleRenderers 2 sampleContextLater = f 2 sampleContextLater) ∧
    RenderElement sampleRenderers 2 sampleContextLater
      = (.ok (some "Kind2"), { sampleContextLater with
          m_warnings := [⟨Code.RenderException, "earlier"⟩, ⟨Code.otherCode 2, "kind 2 ran"⟩] }) :=
  ⟨⟨_, rfl, RenderElement_runs_routine sampleRenderers 2 _ sampleContextLater rfl⟩, rfl⟩

end TopLevelClaims

/-! ## Claims on the ledger and on construction -/

theorem addWarningsInOrder_ledger {Click : Type} (warnings : List AdaptiveWarning) :
    ∀ self : AdaptiveRenderContext Click,
      (addWarningsInOrder warnings self).m_warnings = self.m_warnings ++ warnings := by
  induction warnings with
  | nil => intro self; simp [addWarningsInOrder]
  | cons w rest ih =>
    intro self
    rw [addWarningsInOrder, ih]
    simp [AddWarning]

/-- C12: the ledger keeps insertion order: `AddWarning(w)` never fails and `GetWarnings()`
afterwards returns the former ledger followed by `w`; so after `AddWarning(w1)`, ...,
`AddWarning(wn)` on a freshly constructed context `GetWarnings()` returns `w1, ..., wn` in
that order, repeated warnings included. -/
theorem AddWarning_keeps_order {Click : Type} :
    (∀ (self : AdaptiveRenderContext Click) (w : AdaptiveWarning),
      (AddWarning w self).1 = .ok () ∧
      (GetWarnings (AddWarning w self).2).1 = .ok (self.m_warnings ++ [w])) ∧
    (∀ (hostConfig : HostConfig) (warnings : List AdaptiveWarning),
      (GetWarnings (addWarningsInOrder warnings
        (AdaptiveRenderContext.new hostConfig : AdaptiveRenderContext Click))).1
        = .ok warnings) := by
  refine ⟨fun self w => ⟨rfl, rfl⟩, fun hostConfig warnings => ?_⟩
  simp [GetWarnings, addWarningsInOrder_ledger, AdaptiveRenderContext.new]

/-- C14: a context newly constructed from a host configuration has the foreground colours
of that configuration's default container style as its active palette, so `GetColor`
resolves every token and pair of modifiers against that palette; its ledger is empty and
its ancestor-has-fallback flag is false. -/
theorem new_context_state {Click : Type} (hostConfig : HostConfig) :
    (AdaptiveRenderContext.new hostConfig : AdaptiveRenderContext Click).m_renderArgs.GetForegroundColors
      = hostConfig.containerStyles.defaultPalette.foregroundColors ∧
    (∀ (hexStrToInt : String → Except Exception Int) (token : ForegroundColor)
        (subtle highlight : Bool),
      (GetColor hexStrToInt token subtle highlight
        (AdaptiveRenderContext.new hostConfig : AdaptiveRenderContext Click)).1
        = GetRGBColor hexStrToInt
            (rawColor hostConfig.containerStyles.defaultPalette.foregroundColors
              token subtle highlight)) ∧
    (AdaptiveRenderContext.new hostConfig : AdaptiveRenderContext Click).m_warnings = [] ∧
    (GetWarnings (AdaptiveRenderContext.new hostConfig : AdaptiveRenderContext Click)).1
      = .ok [] ∧
    (AdaptiveRenderContext.new hostConfig : AdaptiveRenderContext Click).m_ancestorHasFallback
      = false := by
  refine ⟨rfl, ?_, rfl, rfl, rfl⟩
  intro hexStrToInt token subtle highlight
  cases token <;> cases subtle <;> cases highlight <;> rfl

/-! ## Claims on the emitted channel values and opacity -/

theorem char_le_iff_toNat (a b : Char) : a ≤ b ↔ a.toNat ≤ b.toNat := by
  rfl

theorem hexDigitValue_le {c : Char} {d : Nat} (h : hexDigitValue c = some d) : d ≤ 15 := by
  unfold hexDigitValue at h
  simp only [char_le_iff_toNat] at h
  have e0 : '0'.toNat = 48 := rfl
  have e9 : '9'.toNat = 57 := rfl
  have ea : 'a'.toNat = 97 := rfl
  have ef : 'f'.toNat = 102 := rfl
  have eA : 'A'.toNat = 65 := rfl
  have eF : 'F'.toNat = 70 := rfl
  rw [e0, e9, ea, ef, eA, eF] at h
  split_ifs at h with h1 h2 h3 <;> simp at h <;> omega

theorem HexStrToInt_two_digits {c1 c2 : Char} (h1 : IsHexDigit c1) (h2 : IsHexDigit c2) :
    ∃ v : Nat, v ≤ 255 ∧ HexStrToInt ⟨[c1, c2]⟩ = .ok (Int.ofNat v) := by
  obtain ⟨d1, hd1⟩ := Option.isSome_iff_exists.mp h1
  obtain ⟨d2, hd2⟩ := Option.isSome_iff_exists.mp h2
  have b1 := hexDigitValue_le hd1
  have b2 := hexDigitValue_le hd2
  refine ⟨16 * (16 * 0 + d1) + d2, by omega, ?_⟩
  simp [HexStrToInt, hexValue, hd1, hd2]

theorem nine_chars (s : String) (hlen : s.length = 9) :
    ∃ c0 c1 c2 c3 c4 c5 c6 c7 c8 : Char, s = ⟨[c0, c1, c2, c3, c4, c5, c6, c7, c8]⟩ := by
  rcases s with ⟨cs⟩
  match cs, hlen with
  | [c0, c1, c2, c3, c4, c5, c6, c7, c8], _ => exact ⟨c0, c1, c2, c3, c4, c5, c6, c7, c8, rfl⟩

theorem GetRGBColor_nine_ok {hexStrToInt : String → Except Exception Int} {s : String}
    {alpha red green blue : Int} (hlen : s.length = 9) (hhash : BeginsWithHash s)
    (ha : hexStrToInt (colorField s 1) = .ok alpha) (hr : hexStrToInt (colorField s 3) = .ok red)
    (hg : hexStrToInt (colorField s 5) = .ok green)
    (hb : hexStrToInt (colorField s 7) = .ok blue) :
    GetRGBColor hexStrToInt s
      = .ok (rgbaCall red green blue ((Flt.ofInt alpha).div (Flt.ofInt 255)).fixed2) := by
  rw [GetRGBColor_nine hlen hhash, tryBlock_unfold hlen, ha, hr, hg, hb]
  rfl

set_option maxRecDepth 100000 in
theorem opacityHundredths_table :
    ∀ a : Nat, a < 256 → opacityHundredths a = (200 * a + 255) / 510 := by
  decide

theorem fixed2_eq_hundredthsText (a : Nat) (ha : a < 256) :
    ((Flt.ofInt (Int.ofNat a)).div (Flt.ofInt 255)).fixed2
      = hundredthsText (opacityHundredths a) := by
  have hnat : ((200 * (a : Int) + 255) / 510).toNat = (200 * a + 255) / 510 := by omega
  rw [fixed2_alpha_table a ha, opacityHundredths_table a ha, hnat]
  rfl

theorem hundredthsText_isFixedTwoDecimals (h : Nat) : IsFixedTwoDecimals (hundredthsText h) := by
  refine ⟨false, h / 100, h % 100 / 10, h % 10, by omega, by omega, ?_⟩
  simp [hundredthsText]

/-- C15: for every 9-character text `#AARRGGBB` whose eight characters after `#` are
hexadecimal digits, read by the hexadecimal `HexStrToInt`, `GetRGBColor` emits three
channel values within 0..255 and an opacity of `h` hundredths with `h ≤ 100`, written with
exactly two digits after the point, which is `0.00` for `AA = 00` and `1.00` for `AA = FF`;
and the hundredths written never decrease when the alpha value grows. -/
theorem GetRGBColor_channels_and_opacity :
    (∀ s : String, s.length = 9 → BeginsWithHash s →
      (∀ c ∈ s.data.drop 1, IsHexDigit c) →
      ∃ alpha red green blue : Nat,
        HexStrToInt (colorField s 1) = .ok (Int.ofNat alpha) ∧
        HexStrToInt (colorField s 3) = .ok (Int.ofNat red) ∧
        HexStrToInt (colorField s 5) = .ok (Int.ofNat green) ∧
        HexStrToInt (colorField s 7) = .ok (Int.ofNat blue) ∧
        alpha ≤ 255 ∧ red ≤ 255 ∧ green ≤ 255 ∧ blue ≤ 255 ∧
        GetRGBColor HexStrToInt s
          = .ok (rgbaCall (Int.ofNat red) (Int.ofNat green) (Int.ofNat blue)
              (hundredthsText (opacityHundredths alpha))) ∧
        opacityHundredths alpha ≤ 100 ∧
        IsFixedTwoDecimals (hundredthsText (opacityHundredths alpha)) ∧
        (colorField s 1 = "00" → hundredthsText (opacityHundredths alpha) = "0.00") ∧
        (colorField s 1 = "FF" → hundredthsText (opacityHundredths alpha) = "1.00")) ∧
    (∀ a1 a2 : Nat, a1 ≤ a2 → a2 ≤ 255 → opacityHundredths a1 ≤ opacityHundredths a2) := by
  refine ⟨?_, ?_⟩
  · intro s hlen hhash hhex
    obtain ⟨c0, c1, c2, c3, c4, c5, c6, c7, c8, rfl⟩ := nine_chars s hlen
    have hd : ∀ c, c ∈ [c1, c2, c3, c4, c5, c6, c7, c8] → IsHexDigit c := hhex
    obtain ⟨alpha, balpha, halpha⟩ :=
      HexStrToInt_two_digits (hd c1 (by simp)) (hd c2 (by simp))
    obtain ⟨red, bred, hred⟩ := HexStrToInt_two_digits (hd c3 (by simp)) (hd c4 (by simp))
    obtain ⟨green, bgreen, hgreen⟩ :=
      HexStrToInt_two_digits (hd c5 (by simp)) (hd c6 (by simp))
    obtain ⟨blue, bblue, hblue⟩ := HexStrToInt_two_digits (hd c7 (by simp)) (hd c8 (by simp))
    have halpha255 : alpha < 256 := by omega
    refine ⟨alpha, red, green, blue, halpha, hred, hgreen, hblue, balpha, bred, bgreen, bblue,
      ?_, ?_, hundredthsText_isFixedTwoDecimals _, ?_, ?_⟩
    · rw [GetRGBColor_nine_ok hlen hhash halpha hred hgreen hblue,
        fixed2_eq_hundredthsText alpha halpha255]
    · rw [opacityHundredths_table alpha halpha255]
      omega
    · intro h00
      have hfield : colorField (String.mk [c0, c1, c2, c3, c4, c5, c6, c7, c8]) 1
          = String.mk [c1, c2] := rfl
      rw [hfield] at h00
      rw [h00] at halpha
      have hzero : alpha = 0 := by
        have h0 : HexStrToInt "00" = .ok (Int.ofNat 0) := rfl
        rw [h0] at halpha
        injection halpha with h
        exact (Int.ofNat.inj h).symm
      subst hzero
      decide
    · intro hFF
      have hfield : colorField (String.mk [c0, c1, c2, c3, c4, c5, c6, c7, c8]) 1
          = String.mk [c1, c2] := rfl
      rw [hfield] at hFF
      rw [hFF] at halpha
      have hfull : alpha = 255 := by
        have h0 : HexStrToInt "FF" = .ok (Int.ofNat 255) := rfl
        rw [h0] at halpha
        injection halpha with h
        exact (Int.ofNat.inj h).symm
      subst hfull
      decide
  · intro a1 a2 h12 h2
    rw [opacityHundredths_table a1 (by omega), opacityHundredths_table a2 (by omega)]
    omega

theorem hexDigits_80336699 : ∀ c ∈ "#80336699".data.drop 1, IsHexDigit c := by
  show ∀ c ∈ "#80336699".data.drop 1, (hexDigitValue c).isSome = true
  decide

/-- C15 at `#80336699` and on the alpha values 128 and 255. -/
theorem GetRGBColor_channels_and_opacity_witness :
    ("#80336699".length = 9 ∧ BeginsWithHash "#80336699" ∧
      (∀ c ∈ "#80336699".data.drop 1, IsHexDigit c)) ∧
    (∃ alpha red green blue : Nat,
        HexStrToInt (colorField "#80336699" 1) = .ok (Int.ofNat alpha) ∧
        HexStrToInt (colorField "#80336699" 3) = .ok (Int.ofNat red) ∧
        HexStrToInt (colorField "#80336699" 5) = .ok (Int.ofNat green) ∧
        HexStrToInt (colorField "#80336699" 7) = .ok (Int.ofNat blue) ∧
        alpha ≤ 255 ∧ red ≤ 255 ∧ green ≤ 255 ∧ blue ≤ 255 ∧
        GetRGBColor HexStrToInt "#80336699"
          = .ok (rgbaCall (Int.ofNat red) (Int.ofNat green) (Int.ofNat blue)
              (hundredthsText (opacityHundredths alpha))) ∧
        opacityHundredths alpha ≤ 100 ∧
        IsFixedTwoDecimals (hundredthsText (opacityHundredths alpha)) ∧
        (colorField "#80336699" 1 = "00" → hundredthsText (opacityHundredths alpha) = "0.00") ∧
        (colorField "#80336699" 1 = "FF" → hundredthsText (opacityHundredths alpha) = "1.00")) ∧
    opacityHundredths 128 ≤ opacityHundredths 255 :=
  ⟨⟨rfl, ⟨"80336699", rfl⟩, hexDigits_80336699⟩,
    GetRGBColor_channels_and_opacity.1 "#80336699" rfl ⟨"80336699", rfl⟩ hexDigits_80336699,
    GetRGBColor_channels_and_opacity.2 128 255 (by decide) (by decide)⟩

/-! ## The ledger is append-only -/

theorem sampleNotingRenderer_keepsLedger (root : List Nat) :
    KeepsLedger (sampleNotingRenderer root) := by
  intro self
  exact List.prefix_append _ _

theorem sampleRenderers_keepLedger (kind : Nat) (flag : Bool)
    (f : ElementRendererFunction Nat String Nat) (hf : sampleRenderers.Get kind flag = some f)
    (element : Nat) : KeepsLedger (f element) := by
  intro self
  simp only [sampleRenderers] at hf
  split_ifs at hf with h1 h2
  · cases hf
    exact List.prefix_refl _
  · cases hf
    exact List.prefix_append _ _

/-- C18: the ledger is append-only under every operation of the context.  With a document
routine and registry routines that themselves keep the ledger (they reach it through
`AddWarning` only), each of `AddWarning`, `GetWarnings`, `GetConfig`, `GetRGBColor`,
`GetColor`, `GetLang`, `SetLang`, `SetOnClickFunction`, `GetOnClickFunction`, the top-level
`Render` and the per-element `Render` leaves a ledger of which the ledger before the call
is a prefix, whether the call returns or raises. -/
theorem ledger_append_only {Card Element TypeInfo Tag Click : Type}
    (hexStrToInt : String → Except Exception Int)
    (routine : CardRendererFunction Card Tag Click)
    (renderers : AdaptiveElementRenderers Element TypeInfo Tag Click)
    (hroutine : ∀ root, KeepsLedger (routine root))
    (hrenderers : ∀ kind flag f, renderers.Get kind flag = some f →
      ∀ element, KeepsLedger (f element)) :
    (∀ w, KeepsLedger (AddWarning w : Method Click Unit)) ∧
    KeepsLedger (GetWarnings : Method Click (List AdaptiveWarning)) ∧
    KeepsLedger (GetConfig : Method Click HostConfig) ∧
    (∀ color, KeepsLedger
      (AdaptiveRenderContext.GetRGBColor hexStrToInt color : Method Click String)) ∧
    (∀ token subtle highlight, KeepsLedger
      (GetColor hexStrToInt token subtle highlight : Method Click String)) ∧
    KeepsLedger (GetLang : Method Click String) ∧
    (∀ lang, KeepsLedger (SetLang lang : Method Click Unit)) ∧
    (∀ onClick, KeepsLedger (SetOnClickFunction onClick : Method Click Unit)) ∧
    KeepsLedger (GetOnClickFunction : Method Click (Option Click)) ∧
    (∀ root, KeepsLedger (Render root routine)) ∧
    (∀ element, KeepsLedger (RenderElement renderers element)) := by
  refine ⟨?_, ?_, ?_, ?_, ?_, ?_, ?_, ?_, ?_, ?_, ?_⟩
  · intro w self
    exact List.prefix_append _ _
  · intro self
    exact List.prefix_refl _
  · intro self
    exact List.prefix_refl _
  · intro color self
    exact List.prefix_refl _
  · intro token subtle highlight self
    cases highlight <;> exact List.prefix_refl _
  · intro self
    exact List.prefix_refl _
  · intro lang self
    exact List.prefix_refl _
  · intro onClick self
    exact List.prefix_refl _
  · intro self
    exact List.prefix_refl _
  · intro root self
    have hkept := hroutine root self
    cases hrun : routine root self with
    | mk result left =>
      rw [hrun] at hkept
      cases result with
      | ok tag =>
        have h : Render root routine self = (.ok tag, left) := by simp [Render, hrun]
        rw [h]
        exact hkept
      | error e =>
        cases e with
        | AdaptiveFallbackException m =>
          have h : Render root routine self = (.ok none, { left with
              m_warnings := left.m_warnings ++ [⟨Code.RenderException, m⟩] }) := by
            simp [Render, hrun, AddWarning]
          rw [h]
          exact List.IsPrefix.trans hkept (List.prefix_append _ _)
        | stdException what =>
          have h : Render root routine self = (.error (.stdException what), left) := by
            simp [Render, hrun]
          rw [h]
          exact hkept
        | foreign tag =>
          have h : Render root routine self = (.error (.foreign tag), left) := by
            simp [Render, hrun]
          rw [h]
          exact hkept
  · intro element self
    cases hget : renderers.Get (renderers.typeid element)
        (renderers.IsInstanceOfSmart element) with
    | none =>
      have h : RenderElement renderers element self = (.ok none, self) := by
        simp [RenderElement, hget]
      rw [h]
    | some f =>
      have h : RenderElement renderers element self = f element self := by
        simp [RenderElement, hget]
      rw [h]
      exact hrenderers _ _ f hget element self

/-- C18 on the sample routines: the noting document routine and the sample registry keep
the ledger, so does every operation; the top-level `Render` of the noting routine leaves the
earlier warning first, then the routine's note, then its own `RenderException`. -/
theorem ledger_append_only_witness :
    (∀ root, KeepsLedger (sampleNotingRenderer root)) ∧
    (∀ kind flag f, sampleRenderers.Get kind flag = some f →
      ∀ element, KeepsLedger (f element)) ∧
    (∀ root, KeepsLedger (Render root sampleNotingRenderer)) ∧
    (∀ element, KeepsLedger (RenderElement sampleRenderers element)) ∧
    (Render [1] sampleNotingRenderer sampleContextLater).2.m_warnings
      = [⟨Code.RenderException, "earlier"⟩, ⟨Code.otherCode 9, "card routine ran"⟩,
          ⟨Code.RenderException, "card cannot render"⟩] :=
  ⟨sampleNotingRenderer_keepsLedger, sampleRenderers_keepLedger,
    (ledger_append_only HexStrToInt sampleNotingRenderer sampleRenderers
      sampleNotingRenderer_keepsLedger sampleRenderers_keepLedger).2.2.2.2.2.2.2.2.2.1,
    (ledger_append_only HexStrToInt sampleNotingRenderer sampleRenderers
      sampleNotingRenderer_keepsLedger sampleRenderers_keepLedger).2.2.2.2.2.2.2.2.2.2,
    rfl⟩

end RendererQml
